import Mathlib

/-!
Verification development for the TabarBaptiste/QualityAssurance repository.

The central subsystem is the test execution and reporting engine in
src/test_runner.py (class TestResult, class EnhancedTestRunner, the
run_tests entry point and the __main__ block) together with the suite
wrapper in src/test_suite.py (class TestSuite).

Shallow embedding conventions:
* Python floats coming from time.time() are modelled as rationals; the
  wall clock is nondeterministic, so measured timestamps are explicit
  inputs of the embedded operations.
* Python exceptions carried around as data (the formatted string produced
  by _exc_info_to_string) are modelled as the message String itself.
* A test object is identified by its string representation str(test),
  which is what the reporters interpolate.
* Side effects (file writes, console prints, opening a browser) are
  reified as an explicit Effect list returned by the embedded function.
-/

namespace QA

/-- One element of TestResult.test_results (src/test_runner.py lines 30-69):
a dict with keys test, result, execution_time, details. -/
structure UnitRecord where
  test : String
  result : String
  execution_time : ℚ
  details : Option String
deriving Repr, DecidableEq

/-- State of a TestResult object (src/test_runner.py lines 11-18) together
with the fields inherited from unittest.TestResult that the code reads:
testsRun (incremented by startTest), and the failures / errors / skipped
lists appended to by the super() calls in addFailure / addError / addSkip.
Entries of those inherited lists are (str(test), formatted error or reason)
pairs. -/
structure TRState where
  testsRun : Nat
  failures : List (String × String)
  errors : List (String × String)
  skipped : List (String × String)
  test_results : List UnitRecord
  start_times : List (String × ℚ)
  execution_times : List (String × ℚ)
deriving Repr, DecidableEq

/-- Fresh TestResult state as built by TestResult.__init__ (lines 14-18):
empty collections, testsRun = 0. -/
def initState : TRState :=
  { testsRun := 0, failures := [], errors := [], skipped := [],
    test_results := [], start_times := [], execution_times := [] }

/-- TestResult.startTest (lines 20-23): the super() call increments
testsRun, then the start time is stored in start_times.  Storing is a dict
assignment; consing onto an association list looked up front-first has the
same overwrite semantics. -/
def startTest (st : TRState) (test : String) (now : ℚ) : TRState :=
  { st with testsRun := st.testsRun + 1,
            start_times := (test, now) :: st.start_times }

/-- TestResult.addSuccess (lines 25-35): computes
execution_time = now - start_times[test], stores it, and appends a
SUCCESS record with details None.  The base-class addSuccess mutates no
collection. -/
def addSuccess (st : TRState) (test : String) (now : ℚ) : TRState :=
  let execution_time := now - ((st.start_times.lookup test).getD 0)
  { st with execution_times := (test, execution_time) :: st.execution_times,
            test_results := st.test_results ++
              [{ test := test, result := "SUCCESS",
                 execution_time := execution_time, details := none }] }

/-- TestResult.addError (lines 37-47): the super() call appends
(test, formatted error) to errors; then an ERROR record is appended with
details = the formatted error string (_exc_info_to_string is modelled as
the message string err itself). -/
def addError (st : TRState) (test : String) (err : String) (now : ℚ) : TRState :=
  let execution_time := now - ((st.start_times.lookup test).getD 0)
  { st with errors := st.errors ++ [(test, err)],
            execution_times := (test, execution_time) :: st.execution_times,
            test_results := st.test_results ++
              [{ test := test, result := "ERROR",
                 execution_time := execution_time, details := some err }] }

/-- TestResult.addFailure (lines 49-59): the super() call appends
(test, formatted error) to failures; then a FAILURE record is appended
with details = the formatted assertion error string. -/
def addFailure (st : TRState) (test : String) (err : String) (now : ℚ) : TRState :=
  let execution_time := now - ((st.start_times.lookup test).getD 0)
  { st with failures := st.failures ++ [(test, err)],
            execution_times := (test, execution_time) :: st.execution_times,
            test_results := st.test_results ++
              [{ test := test, result := "FAILURE",
                 execution_time := execution_time, details := some err }] }

/-- TestResult.addSkip (lines 61-69): the super() call appends
(test, reason) to skipped; then a SKIP record is appended with
execution_time 0 and details = the skip reason.  No time is measured. -/
def addSkip (st : TRState) (test : String) (reason : String) : TRState :=
  { st with skipped := st.skipped ++ [(test, reason)],
            test_results := st.test_results ++
              [{ test := test, result := "SKIP",
                 execution_time := 0, details := some reason }] }

/-- How the body of one test unit finishes, as distinguished by the
unittest harness: normal return, an assertion-style failure (with its
formatted message/trace), any other raised error (with its formatted
message/trace), or a skip marker (with its reason). -/
inductive BodyOutcome where
  | normal
  | assertionFailure (msg : String)
  | otherError (msg : String)
  | skipped (reason : String)
deriving Repr, DecidableEq

/-- Execution of one unit under the unittest harness, as observed by the
TestResult callbacks (src/test_runner.py lines 20-69): startTest fires at
the measured start time, the body runs, and exactly one of addSuccess /
addFailure / addError / addSkip fires according to how the body finished
(addSkip for a unit marked skipped, whose body is never invoked). -/
def runUnit (st : TRState) (test : String) (out : BodyOutcome)
    (startT endT : ℚ) : TRState :=
  let st1 := startTest st test startT
  match out with
  | .normal => addSuccess st1 test endT
  | .assertionFailure m => addFailure st1 test m endT
  | .otherError m => addError st1 test m endT
  | .skipped r => addSkip st1 test r

/-- One scheduled unit of a run: its identifier str(test), how its body
finishes, and the wall-clock instants at which it starts and ends. -/
structure ScheduledUnit where
  name : String
  outcome : BodyOutcome
  startT : ℚ
  endT : ℚ
deriving Repr, DecidableEq

/-- Sequential run over a list of scheduled units starting from a fresh
TestResult, as orchestrated by unittest inside EnhancedTestRunner.run
(src/test_runner.py lines 82-95): each unit is executed once, in order. -/
def runAll (units : List ScheduledUnit) : TRState :=
  units.foldl (fun st u => runUnit st u.name u.outcome u.startT u.endT) initState

/-- unittest.TestResult.wasSuccessful for this result class: true iff the
failures and errors lists are both empty (no expected-failure bookkeeping
is exercised by the four callbacks above). -/
def wasSuccessful (st : TRState) : Bool :=
  st.failures.length == 0 && st.errors.length == 0

/-- Process exit code of the __main__ block (src/test_runner.py line 254):
sys.exit(not result.wasSuccessful()), so 0 when the run was successful and
1 otherwise. -/
def exitCode (st : TRState) : Nat :=
  if wasSuccessful st then 0 else 1

/-- Run Summary shape shared by both reporters: total tests, successful,
failures, errors, skipped.  The successful count is computed by Python int
subtraction, hence an integer. -/
structure RunSummary where
  total : Nat
  succeeded : ℤ
  failed : Nat
  errored : Nat
  skipped : Nat
deriving Repr, DecidableEq

/-- Summary numbers printed by EnhancedTestRunner._print_summary
(src/test_runner.py lines 103-108): total execution time, testsRun,
testsRun - len(errors) - len(failures) - len(skipped), and the three list
lengths. -/
def printSummaryCounts (st : TRState) (execution_time : ℚ) : RunSummary × ℚ :=
  ({ total := st.testsRun,
     succeeded := (st.testsRun : ℤ) - st.errors.length - st.failures.length
       - st.skipped.length,
     failed := st.failures.length,
     errored := st.errors.length,
     skipped := st.skipped.length }, execution_time)

/-- Summary numbers interpolated into the HTML summary block by
EnhancedTestRunner._generate_html_report (src/test_runner.py lines
166-171): the same fields, read off the same result object. -/
def htmlReportCounts (st : TRState) (execution_time : ℚ) : RunSummary × ℚ :=
  ({ total := st.testsRun,
     succeeded := (st.testsRun : ℤ) - st.errors.length - st.failures.length
       - st.skipped.length,
     failed := st.failures.length,
     errored := st.errors.length,
     skipped := st.skipped.length }, execution_time)

/-- The apostrophe character, written by code point to keep the source
free of tricky literals. -/
def aposChar : Char := Char.ofNat 39

/-- Replacement performed by html.escape(·, quote=True) on one character:
ampersand, angle brackets and both quote characters become entities, every
other character is kept. -/
def escapeChar (c : Char) : String :=
  if c = '&' then "&amp;"
  else if c = '<' then "&lt;"
  else if c = '>' then "&gt;"
  else if c = '"' then "&quot;"
  else if c = aposChar then "&#x27;"
  else ⟨[c]⟩

/-- Character-by-character application of escapeChar to a character list. -/
def escapeList : List Char → List Char
  | [] => []
  | c :: cs => (escapeChar c).data ++ escapeList cs

/-- Model of Python's html.escape(s, quote=True) as used at
src/test_runner.py line 196.  The library performs five sequential
String.replace passes (ampersand first); since no replacement string
contains a character that a later pass replaces, the sequential passes
coincide with this single character-wise pass. -/
def htmlEscape (s : String) : String := ⟨escapeList s.data⟩

/-- Model of str.lower() as used for the row CSS class at
src/test_runner.py line 192: lowercase each character (the status strings
are ASCII, where Python's and Lean's per-character lowering agree). -/
def pyLower (s : String) : String := ⟨s.data.map Char.toLower⟩

/-- Decimal digits of a natural number, most significant first,
accumulated onto acc. -/
def natStrAux (n : Nat) (acc : List Char) : List Char :=
  let d : Char := Char.ofNat (48 + n % 10)
  if n < 10 then d :: acc
  else natStrAux (n / 10) (d :: acc)
termination_by n
decreasing_by
  exact Nat.div_lt_self (by omega) (by omega)

/-- Decimal rendering of a natural number, as Python's str(int) produces
for nonnegative values. -/
def natStr (n : Nat) : String := ⟨natStrAux n []⟩

/-- Decimal rendering of an integer, as Python's str(int) produces. -/
def intStr (i : ℤ) : String :=
  if i < 0 then "-" ++ natStr i.natAbs else natStr i.natAbs

/-- Model of the fixed-point interpolation f-string of the form x:.3f used
at src/test_runner.py lines 166 and 195: the value rounded to the nearest
thousandth and printed with exactly three decimals.  Float round-half-even
behaviour on exact ties is below the granularity of any claim here. -/
def fmt3 (q : ℚ) : String :=
  let n : ℤ := round (q * 1000)
  let sign := if n < 0 then "-" else ""
  let m := n.natAbs
  let frac := m % 1000
  let fracStr :=
    if frac < 10 then "00" ++ natStr frac
    else if frac < 100 then "0" ++ natStr frac
    else natStr frac
  sign ++ natStr (m / 1000) ++ "." ++ fracStr

/-- One table row of the HTML report, from the loop body of
EnhancedTestRunner._generate_html_report (src/test_runner.py lines
185-198).  The details cell interpolates html.escape(str(details)) where
details is the record's details or the empty string when absent; the test
and status cells interpolate str(test) and the status verbatim, and the
row class is the lowercased status. -/
def renderRow (r : UnitRecord) : String :=
  "\n                    <tr class=\"" ++ pyLower r.result ++ "\">\n" ++
  "                        <td>" ++ r.test ++ "</td>\n" ++
  "                        <td>" ++ r.result ++ "</td>\n" ++
  "                        <td>" ++ fmt3 r.execution_time ++ "s</td>\n" ++
  "                        <td class=\"details\">" ++
    htmlEscape (r.details.getD "") ++ "</td>\n" ++
  "                    </tr>\n            "

/-- All table rows, appended in order of the test_results list
(src/test_runner.py lines 185-198). -/
def renderRows (st : TRState) : String :=
  String.join (st.test_results.map renderRow)

/-- Head of the HTML document built at src/test_runner.py lines 141-183:
doctype, style sheet, the summary block and the opening of the details
table.  Literal braces of the style sheet are written as escapes. -/
def htmlHeader (st : TRState) (execution_time : ℚ) (now : String) : String :=
  "
        <!DOCTYPE html>
        <html>
        <head>
            <title>Test Results - " ++ now ++ "</title>
            <style>
                body \x7b font-family: Arial, sans-serif; margin: 20px; \x7d
                h1 \x7b color: #333; \x7d
                .summary \x7b background-color: #f5f5f5; padding: 15px; border-radius: 5px; margin-bottom: 20px; \x7d
                .test-details \x7b margin-top: 20px; \x7d
                table \x7b width: 100%; border-collapse: collapse; \x7d
                th, td \x7b padding: 8px; text-align: left; border-bottom: 1px solid #ddd; \x7d
                th \x7b background-color: #f2f2f2; \x7d
                .success \x7b background-color: #dff0d8; \x7d
                .error, .failure \x7b background-color: #f2dede; \x7d
                .skip \x7b background-color: #fcf8e3; \x7d
                .details \x7b font-family: monospace; white-space: pre-wrap; \x7d
            </style>
        </head>
        <body>
            <h1>Test Results</h1>

            <div class=\"summary\">
                <h2>Summary</h2>
                <p>Run Date: " ++ now ++ "</p>
                <p>Total Execution Time: " ++ fmt3 execution_time ++ " seconds</p>
                <p>Total Tests: " ++ natStr st.testsRun ++ "</p>
                <p>Successful: " ++
    intStr ((st.testsRun : ℤ) - st.errors.length - st.failures.length
      - st.skipped.length) ++ "</p>
                <p>Errors: " ++ natStr st.errors.length ++ "</p>
                <p>Failures: " ++ natStr st.failures.length ++ "</p>
                <p>Skipped: " ++ natStr st.skipped.length ++ "</p>
            </div>

            <div class=\"test-details\">
                <h2>Test Details</h2>
                <table>
                    <tr>
                        <th>Test</th>
                        <th>Result</th>
                        <th>Execution Time</th>
                        <th>Details</th>
                    </tr>
        "

/-- Tail of the HTML document, appended at src/test_runner.py lines
200-205. -/
def htmlFooter : String :=
  "
                </table>
            </div>
        </body>
        </html>
        "

/-- The complete rendered HTML document (html_content at the end of
src/test_runner.py line 205): header, one row per record, footer.  The
two datetime.now() calls of the source are microseconds apart and are
modelled by the single now input. -/
def htmlDocument (st : TRState) (execution_time : ℚ) (now : String) : String :=
  htmlHeader st execution_time now ++ renderRows st ++ htmlFooter

/-- Observable side effects of the reporting code, reified as data. -/
inductive Effect where
  | writeFile (path content : String)
  | printLine (msg : String)
  | openBrowser (url : String)
deriving Repr, DecidableEq

/-- Whether an effect leaves the process: writing to storage or opening a
viewer (console prints stay inside the process). -/
def isExternalEffect : Effect → Bool
  | .writeFile _ _ => true
  | .printLine _ => false
  | .openBrowser _ => true

/-- EnhancedTestRunner._generate_html_report (src/test_runner.py lines
135-213): builds html_content, writes it to a temporary file, prints the
report path, and opens the file in a browser.  The value returned by the
embedding pairs the rendered document with the list of performed side
effects; the tempfile-chosen path and the current time are environment
inputs.  The hasattr guard at line 137 always passes for a TestResult
state. -/
def generateHtmlReport (st : TRState) (execution_time : ℚ) (now path : String) :
    String × List Effect :=
  let html_content := htmlDocument st execution_time now
  (html_content,
   [Effect.writeFile path html_content,
    Effect.printLine ("\nHTML report generated: " ++ path),
    Effect.openBrowser ("file://" ++ path)])

/-- The results dictionary of TestSuite (src/test_suite.py lines 54-60 and
74-80): counts read off the unittest result object plus the run duration
in seconds. -/
structure SuiteResults where
  run : Nat
  failures : Nat
  errors : Nat
  skipped : Nat
  duration : ℚ
deriving Repr, DecidableEq

/-- Success-rate expression of TestSuite._log_results (src/test_suite.py
lines 109-110): ((run - failures - errors) / run * 100) if run > 0 else 0,
with Python's int subtraction and true division modelled over the
rationals. -/
def success_rate (r : SuiteResults) : ℚ :=
  if r.run > 0 then ((r.run : ℚ) - r.failures - r.errors) / r.run * 100 else 0

/-!
Helper definitions used only to state and prove the theorems below.
-/

/-- Outcome Record that one scheduled unit contributes to test_results,
per the harness classification of its body outcome. -/
def classifyRecord (u : ScheduledUnit) : UnitRecord :=
  match u.outcome with
  | .normal =>
      { test := u.name, result := "SUCCESS",
        execution_time := u.endT - u.startT, details := none }
  | .assertionFailure m =>
      { test := u.name, result := "FAILURE",
        execution_time := u.endT - u.startT, details := some m }
  | .otherError m =>
      { test := u.name, result := "ERROR",
        execution_time := u.endT - u.startT, details := some m }
  | .skipped r =>
      { test := u.name, result := "SKIP",
        execution_time := 0, details := some r }

/-- Entry one scheduled unit contributes to the inherited failures list. -/
def failureOf (u : ScheduledUnit) : Option (String × String) :=
  match u.outcome with
  | .assertionFailure m => some (u.name, m)
  | _ => none

/-- Entry one scheduled unit contributes to the inherited errors list. -/
def errorOf (u : ScheduledUnit) : Option (String × String) :=
  match u.outcome with
  | .otherError m => some (u.name, m)
  | _ => none

/-- Entry one scheduled unit contributes to the inherited skipped list. -/
def skipOf (u : ScheduledUnit) : Option (String × String) :=
  match u.outcome with
  | .skipped r => some (u.name, r)
  | _ => none

/-!
Supporting lemmas.
-/

/-- Running one unit appends exactly the classified record. -/
theorem runUnit_test_results (st : TRState) (u : ScheduledUnit) :
    (runUnit st u.name u.outcome u.startT u.endT).test_results =
      st.test_results ++ [classifyRecord u] := by
  cases h : u.outcome <;>
    simp [runUnit, startTest, addSuccess, addFailure, addError, addSkip,
      classifyRecord, h, List.lookup]

/-- Running one unit increments testsRun by one. -/
theorem runUnit_testsRun (st : TRState) (u : ScheduledUnit) :
    (runUnit st u.name u.outcome u.startT u.endT).testsRun = st.testsRun + 1 := by
  cases u.outcome <;>
    simp [runUnit, startTest, addSuccess, addFailure, addError, addSkip]

/-- Running one unit appends its failure entry, if any, to failures. -/
theorem runUnit_failures (st : TRState) (u : ScheduledUnit) :
    (runUnit st u.name u.outcome u.startT u.endT).failures =
      st.failures ++ (failureOf u).toList := by
  cases h : u.outcome <;>
    simp [runUnit, startTest, addSuccess, addFailure, addError, addSkip,
      failureOf, h]

/-- Running one unit appends its error entry, if any, to errors. -/
theorem runUnit_errors (st : TRState) (u : ScheduledUnit) :
    (runUnit st u.name u.outcome u.startT u.endT).errors =
      st.errors ++ (errorOf u).toList := by
  cases h : u.outcome <;>
    simp [runUnit, startTest, addSuccess, addFailure, addError, addSkip,
      errorOf, h]

/-- Running one unit appends its skip entry, if any, to skipped. -/
theorem runUnit_skipped (st : TRState) (u : ScheduledUnit) :
    (runUnit st u.name u.outcome u.startT u.endT).skipped =
      st.skipped ++ (skipOf u).toList := by
  cases h : u.outcome <;>
    simp [runUnit, startTest, addSuccess, addFailure, addError, addSkip,
      skipOf, h]

/-- Characterisation of the fold underlying runAll over an arbitrary
starting state. -/
theorem runAll_go (units : List ScheduledUnit) (st : TRState) :
    (units.foldl (fun st u => runUnit st u.name u.outcome u.startT u.endT) st).test_results
        = st.test_results ++ units.map classifyRecord
  ∧ (units.foldl (fun st u => runUnit st u.name u.outcome u.startT u.endT) st).testsRun
        = st.testsRun + units.length
  ∧ (units.foldl (fun st u => runUnit st u.name u.outcome u.startT u.endT) st).failures
        = st.failures ++ units.filterMap failureOf
  ∧ (units.foldl (fun st u => runUnit st u.name u.outcome u.startT u.endT) st).errors
        = st.errors ++ units.filterMap errorOf
  ∧ (units.foldl (fun st u => runUnit st u.name u.outcome u.startT u.endT) st).skipped
        = st.skipped ++ units.filterMap skipOf := by
  induction units generalizing st with
  | nil => simp
  | cons u rest ih =>
    obtain ⟨h1, h2, h3, h4, h5⟩ := ih (runUnit st u.name u.outcome u.startT u.endT)
    refine ⟨?_, ?_, ?_, ?_, ?_⟩
    · simp [h1, runUnit_test_results]
    · simp [h2, runUnit_testsRun]; omega
    · simp only [List.foldl_cons, h3, runUnit_failures, List.filterMap_cons]
      cases failureOf u <;> simp
    · simp only [List.foldl_cons, h4, runUnit_errors, List.filterMap_cons]
      cases errorOf u <;> simp
    · simp only [List.foldl_cons, h5, runUnit_skipped, List.filterMap_cons]
      cases skipOf u <;> simp

/-- Characterisation of the final TestResult state of a run. -/
theorem runAll_spec (units : List ScheduledUnit) :
    (runAll units).test_results = units.map classifyRecord
  ∧ (runAll units).testsRun = units.length
  ∧ (runAll units).failures = units.filterMap failureOf
  ∧ (runAll units).errors = units.filterMap errorOf
  ∧ (runAll units).skipped = units.filterMap skipOf := by
  have h := runAll_go units initState
  simpa [runAll, initState] using h

/-- Character data of a concatenation is the concatenation of the
character data. -/
theorem data_append (s t : String) : (s ++ t).data = s.data ++ t.data := rfl

/-- Escaping one character never produces a raw left angle bracket. -/
theorem count_lt_escapeChar (c : Char) : (escapeChar c).data.count '<' = 0 := by
  unfold escapeChar
  split_ifs with h1 h2 h3 h4 h5
  · decide
  · decide
  · decide
  · decide
  · decide
  · simp [List.count_cons, h2]

/-- Escaping a character list never produces a raw left angle bracket. -/
theorem count_lt_escapeList (l : List Char) : (escapeList l).count '<' = 0 := by
  induction l with
  | nil => rfl
  | cons c cs ih =>
    simp [escapeList, List.count_append, ih, count_lt_escapeChar]

/-- Escaped text contains no raw left angle bracket, hence cannot open an
HTML tag. -/
theorem count_lt_htmlEscape (s : String) : (htmlEscape s).data.count '<' = 0 :=
  count_lt_escapeList s.data

/-- Decimal digit characters are never a left angle bracket. -/
theorem digitChar_ne_lt (n : Nat) : Char.ofNat (48 + n % 10) ≠ '<' := by
  have h10 : n % 10 < 10 := Nat.mod_lt _ (by omega)
  set k := n % 10 with hk
  interval_cases k <;> decide

/-- Decimal digit accumulation introduces no left angle bracket. -/
theorem count_lt_natStrAux (n : Nat) (acc : List Char) (h : acc.count '<' = 0) :
    (natStrAux n acc).count '<' = 0 := by
  induction n using Nat.strong_induction_on generalizing acc with
  | _ n ih =>
    rw [natStrAux]
    have hd := digitChar_ne_lt n
    split
    · simp [List.count_cons, h, hd]
    · next hge =>
      exact ih (n / 10) (Nat.div_lt_self (by omega) (by omega)) _
        (by simp [List.count_cons, h, hd])

/-- Decimal renderings contain no left angle bracket. -/
theorem count_lt_natStr (n : Nat) : (natStr n).data.count '<' = 0 :=
  count_lt_natStrAux n [] rfl

/-- Fixed-point time renderings contain no left angle bracket. -/
theorem count_lt_fmt3 (q : ℚ) : (fmt3 q).data.count '<' = 0 := by
  have hdot : ("." : String).data.count '<' = 0 := by decide
  have hdash : ("-" : String).data.count '<' = 0 := by decide
  have hnil : ("" : String).data.count '<' = 0 := by decide
  have hz : ("0" : String).data.count '<' = 0 := by decide
  have hzz : ("00" : String).data.count '<' = 0 := by decide
  simp only [fmt3]
  split_ifs <;>
    simp only [data_append, List.count_append, count_lt_natStr,
      hdot, hdash, hnil, hz, hzz]

/-- Number of left angle brackets in one rendered table row: the ten of
the fixed row template plus those of the verbatim unit identifier, for any
of the four harness statuses.  Neither the escaped detail cell nor the
time cell can contribute one. -/
theorem renderRow_count (rec : UnitRecord)
    (h : rec.result = "SUCCESS" ∨ rec.result = "FAILURE" ∨ rec.result = "ERROR"
      ∨ rec.result = "SKIP") :
    (renderRow rec).data.count '<' = 10 + rec.test.data.count '<' := by
  have hfmt := count_lt_fmt3 rec.execution_time
  have hesc := count_lt_htmlEscape (rec.details.getD "")
  have e1 : ("\n                    <tr class=\"" : String).data.count '<' = 1 := by decide
  have e2 : ("\">\n" : String).data.count '<' = 0 := by decide
  have e3 : ("                        <td>" : String).data.count '<' = 1 := by decide
  have e4 : ("</td>\n" : String).data.count '<' = 1 := by decide
  have e5 : ("s</td>\n" : String).data.count '<' = 1 := by decide
  have e6 : ("                        <td class=\"details\">" : String).data.count '<' = 1 := by
    decide
  have e7 : ("                    </tr>\n            " : String).data.count '<' = 1 := by decide
  have l1 : (pyLower "SUCCESS").data.count '<' = 0 := by decide
  have l2 : (pyLower "FAILURE").data.count '<' = 0 := by decide
  have l3 : (pyLower "ERROR").data.count '<' = 0 := by decide
  have l4 : (pyLower "SKIP").data.count '<' = 0 := by decide
  have r1 : ("SUCCESS" : String).data.count '<' = 0 := by decide
  have r2 : ("FAILURE" : String).data.count '<' = 0 := by decide
  have r3 : ("ERROR" : String).data.count '<' = 0 := by decide
  have r4 : ("SKIP" : String).data.count '<' = 0 := by decide
  rcases h with h | h | h | h <;>
    rw [renderRow, h] <;>
    simp only [data_append, List.count_append, hfmt, hesc,
      e1, e2, e3, e4, e5, e6, e7, l1, l2, l3, l4, r1, r2, r3, r4] <;>
    omega

/-!
Claim theorems.
-/

/-- C1: the harness classifies each executed unit by how its body
finished: a normal return yields a SUCCESS record with no detail, an
assertion-style failure yields FAILURE with the message/trace as detail,
any other error yields ERROR with the message/trace as detail, and a unit
marked skipped yields SKIP with the skip reason as detail and a recorded
duration of exactly 0. -/
theorem harness_outcome_classification (st : TRState) (t m r : String) (s e : ℚ) :
    ((runUnit st t .normal s e).test_results =
        st.test_results ++ [⟨t, "SUCCESS", e - s, none⟩])
  ∧ ((runUnit st t (.assertionFailure m) s e).test_results =
        st.test_results ++ [⟨t, "FAILURE", e - s, some m⟩])
  ∧ ((runUnit st t (.otherError m) s e).test_results =
        st.test_results ++ [⟨t, "ERROR", e - s, some m⟩])
  ∧ ((runUnit st t (.skipped r) s e).test_results =
        st.test_results ++ [⟨t, "SKIP", 0, some r⟩]) := by
  refine ⟨?_, ?_, ?_, ?_⟩ <;>
    simp [runUnit, startTest, addSuccess, addFailure, addError, addSkip, List.lookup]

/-- C2: after a run completes, the result list holds exactly one record
per scheduled unit, whatever mix of success, failure, error and skip
outcomes the units produce: its length equals testsRun, which equals the
number of scheduled units, and the recorded unit identifiers are exactly
the scheduled ones in order. -/
theorem run_records_one_per_unit (units : List ScheduledUnit) :
    (runAll units).test_results.length = (runAll units).testsRun
  ∧ (runAll units).testsRun = units.length
  ∧ (runAll units).test_results.map (fun rec => rec.test) =
      units.map (fun u => u.name) := by
  obtain ⟨h1, h2, _, _, _⟩ := runAll_spec units
  refine ⟨?_, h2, ?_⟩
  · simp [h1, h2]
  · simp only [h1, List.map_map]
    refine List.map_congr_left ?_
    intro u _
    cases h : u.outcome <;> simp [classifyRecord, h]

/-- C3: the process exit code is 0 if and only if the run summary has no
failures and no errors, and it is 1 otherwise; a run consisting only of
skipped units exits with 0, and so does a run of zero discovered units. -/
theorem exit_code_iff_no_failures_errors :
    (∀ st : TRState, ∀ et : ℚ,
      (exitCode st = 0 ↔
        ((printSummaryCounts st et).1.failed = 0
          ∧ (printSummaryCounts st et).1.errored = 0))
      ∧ (exitCode st = 0 ∨ exitCode st = 1))
  ∧ exitCode (runAll []) = 0
  ∧ (∀ names : List String, ∀ reason : String,
      exitCode (runAll (names.map (fun n => ⟨n, .skipped reason, 0, 0⟩))) = 0) := by
  refine ⟨?_, by decide, ?_⟩
  · intro st et
    constructor
    · simp [exitCode, wasSuccessful, printSummaryCounts]
    · simp [exitCode]
  · intro names reason
    obtain ⟨_, _, hf, he, _⟩ := runAll_spec (names.map (fun n => ⟨n, .skipped reason, 0, 0⟩))
    simp [exitCode, wasSuccessful, hf, he, List.filterMap_map, failureOf, errorOf]

/-- C4: the run-summary counts satisfy total = succeeded + failed +
errored + skipped whenever the summary is computed (succeeded being
derived from the other counts by integer subtraction), and an empty run
yields the all-zero summary. -/
theorem summary_count_identity :
    (∀ st : TRState, ∀ et : ℚ,
      ((printSummaryCounts st et).1.total : ℤ) =
        (printSummaryCounts st et).1.succeeded + (printSummaryCounts st et).1.failed
          + (printSummaryCounts st et).1.errored + (printSummaryCounts st et).1.skipped)
  ∧ printSummaryCounts (runAll []) 0 =
      ({ total := 0, succeeded := 0, failed := 0, errored := 0, skipped := 0 }, 0) := by
  constructor
  · intro st et
    simp [printSummaryCounts]
    ring
  · rfl

/-- C5 counterexample: the claim that the rendered report contains no
unescaped unit-supplied text fails, because the unit identifier cell is
interpolated verbatim: a record whose identifier is a<b> produces a row
with an eleventh raw left angle bracket beyond the ten of the row
template. -/
theorem html_report_escaping_cex :
    ¬ ((renderRow ⟨"a<b>", "SUCCESS", 0, none⟩).data.count '<' = 10) := by
  rw [renderRow_count ⟨"a<b>", "SUCCESS", 0, none⟩ (Or.inl rfl)]
  decide

/-- C5 amended: every detail value is escaped before being interpolated
into the table — the escaped detail cell contains no raw left angle
bracket — so for any record carrying one of the four harness statuses
whose unit identifier contains no raw left angle bracket, the rendered
row contains exactly the ten left angle brackets of the row template,
whatever markup the detail contains. -/
theorem html_report_detail_escaped (rec : UnitRecord)
    (hres : rec.result = "SUCCESS" ∨ rec.result = "FAILURE" ∨ rec.result = "ERROR"
      ∨ rec.result = "SKIP")
    (htest : rec.test.data.count '<' = 0) :
    (renderRow rec).data.count '<' = 10
  ∧ (htmlEscape (rec.details.getD "")).data.count '<' = 0 :=
  ⟨by rw [renderRow_count rec hres, htest], count_lt_htmlEscape _⟩

/-- C5 witness: a FAILURE record whose detail is an HTML script tag still
renders to a row with only the ten template left angle brackets. -/
theorem html_report_detail_escaped_witness :
    (((⟨"test_ok", "FAILURE", 0, some "<script>alert(1)</script>"⟩ : UnitRecord).result = "SUCCESS"
        ∨ (⟨"test_ok", "FAILURE", 0, some "<script>alert(1)</script>"⟩ : UnitRecord).result = "FAILURE"
        ∨ (⟨"test_ok", "FAILURE", 0, some "<script>alert(1)</script>"⟩ : UnitRecord).result = "ERROR"
        ∨ (⟨"test_ok", "FAILURE", 0, some "<script>alert(1)</script>"⟩ : UnitRecord).result = "SKIP")
      ∧ (⟨"test_ok", "FAILURE", 0, some "<script>alert(1)</script>"⟩ : UnitRecord).test.data.count '<' = 0)
  ∧ ((renderRow ⟨"test_ok", "FAILURE", 0, some "<script>alert(1)</script>"⟩).data.count '<' = 10
      ∧ (htmlEscape ((⟨"test_ok", "FAILURE", 0, some "<script>alert(1)</script>"⟩ : UnitRecord).details.getD "")).data.count '<' = 0) :=
  ⟨⟨by decide, by decide⟩,
    html_report_detail_escaped ⟨"test_ok", "FAILURE", 0, some "<script>alert(1)</script>"⟩
      (by decide) (by decide)⟩

/-- C6 counterexample: the claim that the HTML reporter performs no
writing to storage and no opening of a viewer fails: at any concrete
input its effect list contains external effects (a file write and a
browser open). -/
theorem html_reporter_pure_cex :
    ¬ (((generateHtmlReport initState 0 "2025-01-01 00:00:00" "/tmp/report.html").2.all
        (fun e => !(isExternalEffect e))) = true) := by
  decide

/-- C6 amended: the HTML reporter builds the rendered document as data and
returns it, but it is not a pure producer: it also itself writes the
document to the (tempfile-chosen) path, prints the report path, and opens
the file in a browser — its effect list is exactly those three effects,
two of which are external. -/
theorem html_reporter_returns_doc_and_side_effects
    (st : TRState) (et : ℚ) (now path : String) :
    (generateHtmlReport st et now path).1 = htmlDocument st et now
  ∧ (generateHtmlReport st et now path).2 =
      [Effect.writeFile path (htmlDocument st et now),
       Effect.printLine ("\nHTML report generated: " ++ path),
       Effect.openBrowser ("file://" ++ path)]
  ∧ (generateHtmlReport st et now path).2.any isExternalEffect = true :=
  ⟨rfl, rfl, rfl⟩

/-- C7 counterexample: the claim that a duplicate record call for the same
unit id fails loudly instead of appending is false: running the same unit
identifier twice simply leaves two records for that identifier and raises
nothing. -/
theorem recorder_duplicate_cex :
    ¬ ((runAll [⟨"t", .normal, 0, 1⟩, ⟨"t", .normal, 1, 2⟩]).test_results.countP
        (fun rec => rec.test == "t") ≤ 1) := by
  decide

/-- C7 amended: recording an outcome for a unit identifier that already
has a record silently appends a second record for that identifier — the
recorder performs no duplicate detection and raises no error. -/
theorem recorder_appends_duplicates (st : TRState) (t : String) (out : BodyOutcome)
    (s e : ℚ) (_h : t ∈ st.test_results.map (fun rec => rec.test)) :
    (runUnit st t out s e).test_results.countP (fun rec => rec.test == t) =
      st.test_results.countP (fun rec => rec.test == t) + 1 := by
  have := runUnit_test_results st ⟨t, out, s, e⟩
  simp only [List.countP_append] at *
  rw [this]
  cases hout : out <;>
    simp [classifyRecord, hout, List.countP_append, List.countP_cons]

/-- C7 witness: after one SUCCESS record for unit t, a second call for
the same identifier bumps the number of records for t from one to two. -/
theorem recorder_appends_duplicates_witness :
    ("t" ∈ (runAll [⟨"t", .normal, 0, 1⟩]).test_results.map (fun rec => rec.test))
  ∧ (runUnit (runAll [⟨"t", .normal, 0, 1⟩]) "t" .normal 1 2).test_results.countP
      (fun rec => rec.test == "t") =
    (runAll [⟨"t", .normal, 0, 1⟩]).test_results.countP (fun rec => rec.test == "t") + 1 :=
  ⟨by decide, recorder_appends_duplicates _ "t" .normal 1 2 (by decide)⟩

/-- C8: the text reporter and the HTML reporter compute identical summary
counts (total, succeeded, failed, errored, skipped) and the same total
duration from the same result object. -/
theorem reporters_summary_agree (st : TRState) (execution_time : ℚ) :
    printSummaryCounts st execution_time = htmlReportCounts st execution_time := rfl

/-- C9: in the HTML detail table only the detail column passes through the
escaping function — every rendered row contains the unit identifier and
the status verbatim and the detail only in escaped form — so a unit whose
string representation contains markup, such as Test followed by an img
tag, appears unescaped in the rendered document. -/
theorem html_row_verbatim_columns :
    (∀ rec : UnitRecord, ∃ a b : List Char,
        (renderRow rec).data = a ++ rec.test.data ++ b)
  ∧ (∀ rec : UnitRecord, ∃ a b : List Char,
        (renderRow rec).data = a ++ rec.result.data ++ b)
  ∧ (∀ rec : UnitRecord, ∃ a b : List Char,
        (renderRow rec).data = a ++ (htmlEscape (rec.details.getD "")).data ++ b)
  ∧ List.IsInfix ("Test<img src=x>" : String).data
      (renderRow ⟨"Test<img src=x>", "SUCCESS", 0, some "d"⟩).data := by
  have hx : ∀ rec : UnitRecord, ∃ a b : List Char,
      (renderRow rec).data = a ++ rec.test.data ++ b := by
    intro rec
    refine ⟨("\n                    <tr class=\"" ++ pyLower rec.result ++ "\">\n"
      ++ "                        <td>").data,
      ("</td>\n" ++ "                        <td>" ++ rec.result ++ "</td>\n"
      ++ "                        <td>" ++ fmt3 rec.execution_time ++ "s</td>\n"
      ++ "                        <td class=\"details\">"
      ++ htmlEscape (rec.details.getD "") ++ "</td>\n"
      ++ "                    </tr>\n            ").data, ?_⟩
    simp only [renderRow, data_append, List.append_assoc]
  refine ⟨hx, ?_, ?_, ?_⟩
  · intro rec
    refine ⟨("\n                    <tr class=\"" ++ pyLower rec.result ++ "\">\n"
      ++ "                        <td>" ++ rec.test ++ "</td>\n"
      ++ "                        <td>").data,
      ("</td>\n" ++ "                        <td>" ++ fmt3 rec.execution_time ++ "s</td>\n"
      ++ "                        <td class=\"details\">"
      ++ htmlEscape (rec.details.getD "") ++ "</td>\n"
      ++ "                    </tr>\n            ").data, ?_⟩
    simp only [renderRow, data_append, List.append_assoc]
  · intro rec
    refine ⟨("\n                    <tr class=\"" ++ pyLower rec.result ++ "\">\n"
      ++ "                        <td>" ++ rec.test ++ "</td>\n"
      ++ "                        <td>" ++ rec.result ++ "</td>\n"
      ++ "                        <td>" ++ fmt3 rec.execution_time ++ "s</td>\n"
      ++ "                        <td class=\"details\">").data,
      ("</td>\n" ++ "                    </tr>\n            ").data, ?_⟩
    simp only [renderRow, data_append, List.append_assoc]
  · obtain ⟨a, b, hab⟩ := hx ⟨"Test<img src=x>", "SUCCESS", 0, some "d"⟩
    exact ⟨a, b, by rw [hab]⟩

/-- C10: the suite wrapper's success-rate computation is guarded against
division by zero: for a results dictionary with zero tests run, the
reported success rate is 0 rather than the division
(run - failures - errors) / run. -/
theorem suite_success_rate_guard (f e s : Nat) (d : ℚ) :
    success_rate { run := 0, failures := f, errors := e, skipped := s, duration := d } = 0 := by
  simp [success_rate]

end QA
